import Mathlib

/-!
Shallow embedding of the OPRA feed dissector in src/packet-opra.c and proofs
about it.  Characters are modelled as their ASCII code points (Nat), byte
buffers as lists of naturals read modulo 256, and the tvb accessors as
big-endian reads.  Each dissect function of the C source is embedded as a
Lean function returning the advanced read offset (plus the decoded data the
claims need); the proto tree side effects that only affect display are
represented by the returned records.
-/

/-- A captured byte buffer (the tvb).  Reads past the end yield 0; the
truncation exceptions of the host framework are outside the decoded-layout
properties treated here. -/
abbrev Buf := List Nat

/-- tvb_get_uint8: one byte at an offset, normalised to 0..255. -/
def byteAt (tvb : Buf) (off : Nat) : Nat :=
  tvb.getD off 0 % 256

/-- Big-endian unsigned read of len bytes starting at off. -/
def beUint (tvb : Buf) (off len : Nat) : Nat :=
  (List.range len).foldl (fun acc i => acc * 256 + byteAt tvb (off + i)) 0

/-- OPRA_DENOMINATOR_CODE_LIST rendered as the denom_code_format_strings
table: each entry pairs a denominator code with the number of fractional
digits its printf format string carries.  Codes 65..72 are letters A..H
with 1..8 decimal places; code 73 is letter I with 0 decimal places. -/
def denom_code_format_strings : List (Nat × Nat) :=
  [(65, 1), (66, 2), (67, 3), (68, 4), (69, 5), (70, 6), (71, 7), (72, 8), (73, 0)]

/-- val_to_str over denom_code_format_strings: the format entry for a code,
none when the code is absent (the C falls back to the bad denom_code
string, which has no format specifiers). -/
def val_to_str_fmt (code : Nat) : Option Nat :=
  (denom_code_format_strings.find? (fun p => p.fst == code)).map (fun p => p.snd)

/-- Conversion of pow 10 n from double to uint32 as assigned to divisor in
DisplayPrice: the exact value when it fits in 32 bits, otherwise the
conversion overflows, which C leaves undefined; the typical x86-64 result
0 is modelled. -/
def powToUint32 (n : Nat) : Nat :=
  if 10 ^ n < 2 ^ 32 then 10 ^ n else 0

/-- The divisor computed in DisplayPrice: 1 for code 73 (letter I, the 0
decimal places exception), otherwise the double-to-uint32 conversion of
pow 10 of the uint8 cast of (code - 65) plus 1, where the subtraction is
C int arithmetic truncated to uint8 (the code value originates from a
byte, so it is below 256).  The computation is unconditional: it happens
for codes outside the table too, where the exponent is at least 10 and
the overflowed conversion is modelled as 0. -/
def priceDivisor (code : Nat) : Nat :=
  if code = 73 then 1 else powToUint32 ((code + 256 - 65) % 256 + 1)

/-- Observable outcome of DisplayPrice: the division-by-zero trap that
aborts the dissector when the divisor is the overflowed 0, the bad
denom_code fallback text, or the value rendered as whole and fractional
parts with the format entry count of decimal places. -/
inductive PriceRender where
  | badCode : PriceRender
  | divideByZero : PriceRender
  | rendered : Nat → Nat → Nat → Nat → PriceRender
deriving DecidableEq

/-- DisplayPrice of src/packet-opra.c: looks up the format string for the
code with the bad denom_code fallback, computes the divisor
unconditionally, and divides the value by it before printing.  When the
divisor is the overflowed 0, the integer division traps and the function
never returns, modelled by the divideByZero outcome; only otherwise does
the snprintf run, printing the fallback text, which ignores the numeric
arguments, or the rendered parts. -/
def DisplayPrice (value code : Nat) : PriceRender :=
  if priceDivisor code = 0 then PriceRender.divideByZero
  else
    match val_to_str_fmt code with
    | none => PriceRender.badCode
    | some dps =>
      PriceRender.rendered value (value / priceDivisor code) (value % priceDivisor code) dps

/-- hf_opra_msg_cat_to_types reduced to its category keys: the categories
for which the source registers a message-type table (letters C H Y a d f
k q as code points). -/
def hf_opra_msg_cat_to_types : List Nat :=
  [67, 72, 89, 97, 100, 102, 107, 113]

/-- FindTypesForCategory: scans hf_opra_msg_cat_to_types for the category;
true when a type table is registered for it. -/
def FindTypesForCategory (category : Nat) : Bool :=
  hf_opra_msg_cat_to_types.contains category

/-- The letters CGKO: indicator values carrying a best offer appendage. -/
def hf_opra_msg_indicator_best_offer_appendages : List Nat :=
  [67, 71, 75, 79]

/-- The letters MNOP: indicator values carrying a best bid appendage. -/
def hf_opra_msg_indicator_best_bid_appendages : List Nat :=
  [77, 78, 79, 80]

/-- strchr over a NUL-terminated string as used on the appendage letter
strings: it also finds the terminating NUL, so searching for the byte 0
succeeds on every string. -/
def strchrFound (s : List Nat) (c : Nat) : Bool :=
  c == 0 || s.contains c

/-- The six message-category code points handled by the switch in
dissect_opra: letters C H a d k q.  Category Y (89) is absent although the
source registers it in its category and type tables. -/
def knownCategory (c : Nat) : Bool :=
  decide (c = 67) || decide (c = 72) || decide (c = 97) ||
  decide (c = 100) || decide (c = 107) || decide (c = 113)

/-- The fixed 12-byte message header read at the top of the per-message
loop in dissect_opra. -/
structure MsgHeader where
  participant_id : Nat
  message_category : Nat
  message_type : Nat
  message_indicator : Nat
  transaction_id : Nat
  reference_number : Nat
deriving DecidableEq

/-- Result of dissect_opra_message_category_a beyond the new offset: the
rendered strike and premium prices (the two DisplayPrice call sites). -/
structure CatAResult where
  offset : Nat
  strike : PriceRender
  premium : PriceRender
deriving DecidableEq

/-- dissect_opra_message_category_C: a 2-byte big-endian data length, then
that many opaque payload bytes when the length is positive. -/
def dissect_opra_message_category_C (tvb : Buf) (offset : Nat) : Nat :=
  let data_length := beUint tvb offset 2
  let offset := offset + 2
  if 0 < data_length then offset + data_length else offset

/-- dissect_opra_message_category_a: security symbol 5, reserved 1,
expiration block 3, strike denominator 1, strike price 4 rendered through
DisplayPrice, volume 4, premium denominator 1, premium price 4 rendered
through DisplayPrice, trade identifier 4, reserved 1.  A divideByZero
strike or premium marks a call site where the C traps and never returns;
the offset returned here is then the continuation the C would have
taken. -/
def dissect_opra_message_category_a (tvb : Buf) (offset : Nat) : CatAResult :=
  let offset := offset + 5
  let offset := offset + 1
  let offset := offset + 3
  let denominator1 := byteAt tvb offset
  let offset := offset + 1
  let price1 := beUint tvb offset 4
  let strike := DisplayPrice price1 denominator1
  let offset := offset + 4
  let offset := offset + 4
  let denominator2 := byteAt tvb offset
  let offset := offset + 1
  let price2 := beUint tvb offset 4
  let premium := DisplayPrice price2 denominator2
  let offset := offset + 4
  let offset := offset + 4
  let offset := offset + 1
  ⟨offset, strike, premium⟩

/-- dissect_opra_message_category_d: security symbol 5, reserved 1,
expiration block 3, strike denominator 1, strike price 4, volume 4. -/
def dissect_opra_message_category_d (_tvb : Buf) (offset : Nat) : Nat :=
  let offset := offset + 5
  let offset := offset + 1
  let offset := offset + 3
  let offset := offset + 1
  let offset := offset + 4
  let offset := offset + 4
  offset

/-- dissect_opra_message_category_k: security symbol 5, reserved 1,
expiration block 3, strike denominator 1, strike price 4, premium
denominator 1, bid price 4, bid size 4, offer price 4, offer size 4. -/
def dissect_opra_message_category_k (_tvb : Buf) (offset : Nat) : Nat :=
  let offset := offset + 5
  let offset := offset + 1
  let offset := offset + 3
  let offset := offset + 1
  let offset := offset + 4
  let offset := offset + 1
  let offset := offset + 4
  let offset := offset + 4
  let offset := offset + 4
  let offset := offset + 4
  offset

/-- dissect_opra_message_category_q: security symbol 4, expiration block 3,
strike price 2, bid price 2, bid size 2, offer price 2, offer size 2. -/
def dissect_opra_message_category_q (_tvb : Buf) (offset : Nat) : Nat :=
  let offset := offset + 4
  let offset := offset + 3
  let offset := offset + 2
  let offset := offset + 2
  let offset := offset + 2
  let offset := offset + 2
  let offset := offset + 2
  offset

/-- dissect_opra_quote_appendage: tests the message indicator against the
bid letters then the offer letters with strchr, and consumes one 10-byte
sub-record, participant 1 + denominator 1 + price 4 + size 4, for each
match, bid first. -/
def dissect_opra_quote_appendage (_tvb : Buf) (offset : Nat) (message_indicator : Nat) : Nat :=
  let bid_appendage := strchrFound hf_opra_msg_indicator_best_bid_appendages message_indicator
  let offer_appendage := strchrFound hf_opra_msg_indicator_best_offer_appendages message_indicator
  let offset := if bid_appendage then offset + 1 + 1 + 4 + 4 else offset
  let offset := if offer_appendage then offset + 1 + 1 + 4 + 4 else offset
  offset

/-- The per-message loop of dissect_opra: with a number of messages still
to process, a current offset and the headers already decoded in reverse
order, reads the 12-byte message header, dispatches on the category, and
recurses.  An unrecognized category stops at once, returning the messages
decoded so far and true for the early-return path; a completed loop
returns false. -/
def dissectMessages (tvb : Buf) : Nat → Nat → List MsgHeader → List MsgHeader × Nat × Bool
  | 0, offset, acc => (acc.reverse, offset, false)
  | n + 1, offset, acc =>
    let participant_id := byteAt tvb offset
    let message_category := byteAt tvb (offset + 1)
    let message_type := byteAt tvb (offset + 2)
    let message_indicator := byteAt tvb (offset + 3)
    let transaction_id := beUint tvb (offset + 4) 4
    let reference_number := beUint tvb (offset + 8) 4
    let hdr : MsgHeader :=
      ⟨participant_id, message_category, message_type, message_indicator,
       transaction_id, reference_number⟩
    let offset := offset + 12
    if message_category = 67 then
      dissectMessages tvb n (dissect_opra_message_category_C tvb offset) (hdr :: acc)
    else if message_category = 72 then
      dissectMessages tvb n offset (hdr :: acc)
    else if message_category = 97 then
      dissectMessages tvb n (dissect_opra_message_category_a tvb offset).offset (hdr :: acc)
    else if message_category = 100 then
      dissectMessages tvb n (dissect_opra_message_category_d tvb offset) (hdr :: acc)
    else if message_category = 107 then
      dissectMessages tvb n
        (dissect_opra_quote_appendage tvb (dissect_opra_message_category_k tvb offset) message_indicator)
        (hdr :: acc)
    else if message_category = 113 then
      dissectMessages tvb n
        (dissect_opra_quote_appendage tvb (dissect_opra_message_category_q tvb offset) message_indicator)
        (hdr :: acc)
    else
      (acc.reverse, offset, true)

/-- Outcome of dissect_opra: the decoded message headers, the returned
offset, whether the early return for an unrecognized category was taken,
whether the trailing pad byte was consumed, and whether the length
reconciliation reported the block length expert warning. -/
structure BlockResult where
  messages : List MsgHeader
  offset : Nat
  earlyTerm : Bool
  padConsumed : Bool
  lengthError : Bool
deriving DecidableEq

/-- dissect_opra: walks the 21-byte block header, version 1 + block size 2
+ data feed 1 + retransmission 1 + session 1 + sequence number 4 +
message count 1 + timestamp 8 + checksum 2, reading the message count on
the way, then runs the message loop.  On the early-return path the pad
byte and the length reconciliation are skipped, exactly as the C returns
from inside the loop; otherwise a pad byte is consumed when the offset is
odd and the final offset is compared with the buffer length. -/
def dissect_opra (tvb : Buf) : BlockResult :=
  let offset := 0
  let offset := offset + 1
  let offset := offset + 2
  let offset := offset + 1
  let offset := offset + 1
  let offset := offset + 1
  let offset := offset + 4
  let message_count := byteAt tvb offset
  let offset := offset + 1
  let offset := offset + 8
  let offset := offset + 2
  match dissectMessages tvb message_count offset [] with
  | (msgs, noff, true) =>
    { messages := msgs, offset := noff, earlyTerm := true,
      padConsumed := false, lengthError := false }
  | (msgs, noff, false) =>
    if noff % 2 ≠ 0 then
      { messages := msgs, offset := noff + 1, earlyTerm := false,
        padConsumed := true, lengthError := decide (tvb.length ≠ noff + 1) }
    else
      { messages := msgs, offset := noff, earlyTerm := false,
        padConsumed := false, lengthError := decide (tvb.length ≠ noff) }

/-- Block of 33 bytes: 21-byte header declaring one message, then one
12-byte message header whose category byte is 90, letter Z, which no
switch case handles. -/
def exC3block : Buf :=
  [0, 0, 0, 0, 0, 0, 0, 0, 0, 0, 1, 0, 0, 0, 0, 0, 0, 0, 0, 0, 0,
   79, 90, 32, 32, 0, 0, 0, 0, 0, 0, 0, 0]

/-- Same 33-byte shape as exC3block, used to exhibit the pad-byte claim
failure: the early return leaves the odd offset 33 without a pad byte. -/
def exC4block : Buf :=
  [0, 0, 0, 0, 0, 0, 0, 0, 0, 0, 1, 0, 0, 0, 0, 0, 0, 0, 0, 0, 0,
   79, 90, 32, 32, 0, 0, 0, 0, 0, 0, 0, 0]

/-- Block of 34 bytes: header declaring one message, one control message,
category 72 letter H, header only, ending at the odd offset 33, then the
pad byte. -/
def exC4Hblock : Buf :=
  [0, 0, 0, 0, 0, 0, 0, 0, 0, 0, 1, 0, 0, 0, 0, 0, 0, 0, 0, 0, 0,
   79, 72, 67, 32, 0, 0, 0, 0, 0, 0, 0, 0, 0]

/-- Block of 35 bytes: as exC4Hblock with one extra trailing byte, so the
final offset 34 disagrees with the buffer length. -/
def exC8block : Buf :=
  [0, 0, 0, 0, 0, 0, 0, 0, 0, 0, 1, 0, 0, 0, 0, 0, 0, 0, 0, 0, 0,
   79, 72, 67, 32, 0, 0, 0, 0, 0, 0, 0, 0, 0, 0]

/-- Buffer for the category a decoder whose strike denominator byte, at
index 9 from the message payload start, is 90, letter Z, not a valid
denominator code. -/
def exC6buf : Buf :=
  [0, 0, 0, 0, 0, 0, 0, 0, 0, 90, 0, 0, 0, 7, 0, 0, 0, 0, 66, 0, 0, 0, 5, 0, 0, 0, 0, 0]

/-- Block of 33 bytes: header declaring two messages, first message of
category 89, letter Y, Underlying Value; the switch has no case for it. -/
def exC7block : Buf :=
  [0, 0, 0, 0, 0, 0, 0, 0, 0, 0, 2, 0, 0, 0, 0, 0, 0, 0, 0, 0, 0,
   79, 89, 32, 32, 0, 0, 0, 0, 0, 0, 0, 0]

/-- Block of 70 bytes: header declaring one short quote message, category
113 letter q, whose message indicator byte is 0: 12-byte message header,
17-byte short quote payload, and the 20 bytes the appendage decoder then
consumes. -/
def exC9block : Buf :=
  [0, 0, 0, 0, 0, 0, 0, 0, 0, 0, 1, 0, 0, 0, 0, 0, 0, 0, 0, 0, 0,
   79, 113, 32, 0, 0, 0, 0, 0, 0, 0, 0, 0,
   65, 65, 80, 76, 0, 0, 0, 0, 0, 0, 0, 0, 0, 0, 0, 0, 0,
   0, 0, 0, 0, 0, 0, 0, 0, 0, 0, 0, 0, 0, 0, 0, 0, 0, 0, 0, 0]

/-- Unfolding equation for dissect_opra in terms of the message loop
started at offset 21 with the count byte at index 10. -/
theorem dissect_opra_eq (tvb : Buf) :
    dissect_opra tvb =
      match dissectMessages tvb (byteAt tvb 10) 21 [] with
      | (msgs, noff, true) =>
        { messages := msgs, offset := noff, earlyTerm := true,
          padConsumed := false, lengthError := false }
      | (msgs, noff, false) =>
        if noff % 2 ≠ 0 then
          { messages := msgs, offset := noff + 1, earlyTerm := false,
            padConsumed := true, lengthError := decide (tvb.length ≠ noff + 1) }
        else
          { messages := msgs, offset := noff, earlyTerm := false,
            padConsumed := false, lengthError := decide (tvb.length ≠ noff) } := rfl

/-- Helper: a format entry fixes the divisor as the matching power of ten. -/
theorem divisor_matches_fmt (code dps : Nat) (h : val_to_str_fmt code = some dps) :
    priceDivisor code = 10 ^ dps := by
  unfold val_to_str_fmt at h
  rcases hf : denom_code_format_strings.find? (fun p => p.fst == code) with _ | p
  · rw [hf] at h; simp at h
  · rw [hf] at h
    simp at h
    have hmem := List.mem_of_find?_eq_some hf
    have hpred := List.find?_some hf
    have hcode : p.fst = code := by simpa using hpred
    have hdps : p.snd = dps := by simpa using h
    subst hcode
    subst hdps
    fin_cases hmem <;> decide

/-- Helper: codes outside 65..73 have no format entry. -/
theorem fmt_none_of_unknown (code : Nat) (h : code < 65 ∨ 73 < code) :
    val_to_str_fmt code = none := by
  unfold val_to_str_fmt
  rw [List.find?_eq_none.mpr]
  · rfl
  · intro p hp
    simp only [denom_code_format_strings, List.mem_cons, List.not_mem_nil, or_false] at hp
    rcases hp with h1 | h1 | h1 | h1 | h1 | h1 | h1 | h1 | h1 <;> subst h1 <;>
      simp <;> omega

/-- C1: for denominator codes 65..72 (letters A..H) the price decoder uses
divisor pow 10 (code - 65 + 1) and a format with code - 65 + 1 decimal
places; for code 73 (letter I) the divisor is 1 with 0 decimal places, an
explicit exception. -/
theorem C1_denominator_divisor (code : Nat) (h1 : 65 ≤ code) (h2 : code ≤ 72) :
    (priceDivisor code = 10 ^ (code - 65 + 1) ∧ val_to_str_fmt code = some (code - 65 + 1)) ∧
    (priceDivisor 73 = 1 ∧ val_to_str_fmt 73 = some 0) := by
  refine ⟨?_, by decide⟩
  interval_cases code <;> exact ⟨by decide, by decide⟩

theorem C1_denominator_divisor_witness :
    (65 ≤ 70 ∧ 70 ≤ 72) ∧
    ((priceDivisor 70 = 10 ^ (70 - 65 + 1) ∧ val_to_str_fmt 70 = some (70 - 65 + 1)) ∧
     (priceDivisor 73 = 1 ∧ val_to_str_fmt 73 = some 0)) :=
  ⟨by decide, C1_denominator_divisor 70 (by decide) (by decide)⟩

/-- C2: whenever DisplayPrice renders a value under some denominator code
as a whole part, a fraction part and a decimal-place count, the parts
recombine to the value: whole * pow 10 dps + fraction = value. -/
theorem C2_price_round_trip (value code whole frac dps : Nat)
    (h : DisplayPrice value code = PriceRender.rendered value whole frac dps) :
    whole * 10 ^ dps + frac = value := by
  unfold DisplayPrice at h
  by_cases hz : priceDivisor code = 0
  · rw [if_pos hz] at h
    exact absurd h (by simp)
  · rw [if_neg hz] at h
    rcases hf : val_to_str_fmt code with _ | d
    · rw [hf] at h; simp at h
    · rw [hf] at h
      simp only [PriceRender.rendered.injEq] at h
      obtain ⟨-, hw, hfr, hd⟩ := h
      have hdiv := divisor_matches_fmt code d hf
      subst hw hfr hd
      rw [← hdiv, Nat.mul_comm]
      exact Nat.div_add_mod value (priceDivisor code)

theorem C2_price_round_trip_witness : 12 * 10 ^ 2 + 34 = 1234 :=
  C2_price_round_trip 1234 66 12 34 2 (by decide)

/-- C3: when the message loop meets an unrecognized category byte with
messages still to process, it stops right after that 12-byte message
header, keeps exactly the messages decoded so far, and takes the
early-return path; dissect_opra then returns those messages as the
partial result together with the early-termination outcome. -/
theorem C3_unknown_category_partial (tvb : Buf) (n offset : Nat)
    (sofar msgs : List MsgHeader) (off : Nat)
    (hn : 0 < n)
    (hcat : knownCategory (byteAt tvb (offset + 1)) = false)
    (hrun : dissectMessages tvb (byteAt tvb 10) 21 [] = (msgs, off, true)) :
    dissectMessages tvb n offset sofar = (sofar.reverse, offset + 12, true) ∧
    (dissect_opra tvb).messages = msgs ∧
    (dissect_opra tvb).earlyTerm = true ∧
    (dissect_opra tvb).offset = off := by
  constructor
  · cases n with
    | zero => omega
    | succ m =>
      simp only [knownCategory, Bool.or_eq_false_iff, decide_eq_false_iff_not] at hcat
      obtain ⟨⟨⟨⟨⟨h1, h2⟩, h3⟩, h4⟩, h5⟩, h6⟩ := hcat
      simp only [dissectMessages, if_neg h1, if_neg h2, if_neg h3, if_neg h4, if_neg h5,
        if_neg h6]
  · simp [dissect_opra_eq, hrun]

theorem C3_unknown_category_partial_witness :
    dissectMessages exC3block 1 21 [] = ([], 33, true) ∧
    (dissect_opra exC3block).messages = [] ∧
    (dissect_opra exC3block).earlyTerm = true ∧
    (dissect_opra exC3block).offset = 33 :=
  C3_unknown_category_partial exC3block 1 21 [] [] 33 (by decide) (by decide) (by decide)

/-- C4 counterexample: on exC4block the message loop terminates early at
the odd offset 33, yet no pad byte is consumed, contradicting the claim
that after early termination a pad byte is consumed when the running
offset is odd. -/
theorem C4_pad_counterexample :
    (dissect_opra exC4block).earlyTerm = true ∧
    (dissect_opra exC4block).offset % 2 = 1 ∧
    (dissect_opra exC4block).padConsumed = false := by decide

/-- C4 (amended): a pad byte is consumed exactly when the message loop
completes normally and leaves an odd offset; after early termination on
an unrecognized category no pad byte is consumed, whatever the parity. -/
theorem C4_pad_byte_amended (tvb : Buf) (msgs : List MsgHeader) (off : Nat) (et : Bool)
    (hrun : dissectMessages tvb (byteAt tvb 10) 21 [] = (msgs, off, et)) :
    (et = false → off % 2 = 1 →
      (dissect_opra tvb).padConsumed = true ∧ (dissect_opra tvb).offset = off + 1) ∧
    (et = false → off % 2 = 0 →
      (dissect_opra tvb).padConsumed = false ∧ (dissect_opra tvb).offset = off) ∧
    (et = true →
      (dissect_opra tvb).padConsumed = false ∧ (dissect_opra tvb).offset = off) := by
  cases et
  · simp only [dissect_opra_eq, hrun]
    refine ⟨fun _ h1 => ?_, fun _ h0 => ?_, fun h => by cases h⟩
    · rw [if_pos (by omega : off % 2 ≠ 0)]
      exact ⟨rfl, rfl⟩
    · rw [if_neg (by omega : ¬ off % 2 ≠ 0)]
      exact ⟨rfl, rfl⟩
  · simp [dissect_opra_eq, hrun]

theorem C4_pad_byte_amended_witness :
    (dissect_opra exC4Hblock).padConsumed = true ∧
    (dissect_opra exC4Hblock).offset = 34 := by
  have h := (C4_pad_byte_amended exC4Hblock [⟨79, 72, 67, 32, 0, 0⟩] 33 false
    (by decide)).1 rfl (by decide)
  simpa using h

/-- C5 exhibit: the indicator byte 0 is a member of neither appendage
letter list, yet the appendage decoder advances the offset by 20 because
strchr also finds the terminating NUL of each letter string; a non-member
letter such as 65 is the claimed no-op. -/
theorem C5_appendage_nul_indicator :
    hf_opra_msg_indicator_best_bid_appendages.contains 0 = false ∧
    hf_opra_msg_indicator_best_offer_appendages.contains 0 = false ∧
    dissect_opra_quote_appendage [] 40 0 = 60 ∧
    dissect_opra_quote_appendage [] 40 65 = 40 := by decide

/-- C6 exhibit: for every denominator code byte outside 65..73 the format
lookup does fall back to the bad denom_code text, but the divisor
computed unconditionally in DisplayPrice is the overflowed
double-to-uint32 conversion, modelled as 0, so the division of the value
by it is a division by zero that aborts the dissector before the
fallback is ever printed; the strike field of a category a message
carrying such a code reaches exactly this trap, so the field is not
rendered as unparseable and the message decode does not continue. -/
theorem C6_unknown_denominator_crash (tvb : Buf) (offset code value : Nat)
    (hb : byteAt tvb (offset + 9) = code)
    (hcode : code < 65 ∨ 73 < code) :
    val_to_str_fmt code = none ∧
    priceDivisor code = 0 ∧
    DisplayPrice value code = PriceRender.divideByZero ∧
    (dissect_opra_message_category_a tvb offset).strike = PriceRender.divideByZero := by
  have hlt : code < 256 := by
    rw [← hb]
    unfold byteAt
    exact Nat.mod_lt _ (by norm_num)
  have hzero : priceDivisor code = 0 := by
    unfold priceDivisor
    rw [if_neg (by omega)]
    unfold powToUint32
    have hn : 10 ≤ (code + 256 - 65) % 256 + 1 := by omega
    have hge : (2 : Nat) ^ 32 ≤ 10 ^ ((code + 256 - 65) % 256 + 1) :=
      le_trans (by norm_num) (Nat.pow_le_pow_right (by norm_num) hn)
    rw [if_neg (not_lt.mpr hge)]
  have hdp : ∀ v, DisplayPrice v code = PriceRender.divideByZero := by
    intro v
    unfold DisplayPrice
    rw [if_pos hzero]
  refine ⟨fmt_none_of_unknown code hcode, hzero, hdp value, ?_⟩
  show DisplayPrice (beUint tvb (offset + 5 + 1 + 3 + 1) 4) (byteAt tvb (offset + 5 + 1 + 3)) =
    PriceRender.divideByZero
  rw [show offset + 5 + 1 + 3 = offset + 9 from by omega, hb]
  exact hdp _

theorem C6_unknown_denominator_crash_witness :
    val_to_str_fmt 90 = none ∧
    priceDivisor 90 = 0 ∧
    DisplayPrice 5 90 = PriceRender.divideByZero ∧
    (dissect_opra_message_category_a exC6buf 0).strike = PriceRender.divideByZero :=
  C6_unknown_denominator_crash exC6buf 0 90 5 (by decide) (by decide)

/-- C7 exhibit: category 89, letter Y, has a registered type table in the
category-to-types map, yet the dispatch switch has no case for it, so a
block whose first of two declared messages is an Underlying Value message
terminates early right after its 12-byte header at offset 33 with no
message fully decoded, instead of being treated as header-only with
decoding continuing. -/
theorem C7_underlying_value_terminates :
    FindTypesForCategory 89 = true ∧
    knownCategory 89 = false ∧
    (dissect_opra exC7block).earlyTerm = true ∧
    (dissect_opra exC7block).messages = [] ∧
    (dissect_opra exC7block).offset = 33 := by decide

/-- C8: whenever the message loop completes normally, dissect_opra reports
the block length expert warning exactly when the buffer length differs
from the final offset after the optional pad byte, and the decoded
messages are returned unchanged alongside it. -/
theorem C8_length_reconciliation (tvb : Buf) (msgs : List MsgHeader) (off : Nat)
    (hrun : dissectMessages tvb (byteAt tvb 10) 21 [] = (msgs, off, false)) :
    (dissect_opra tvb).lengthError = decide (tvb.length ≠ (dissect_opra tvb).offset) ∧
    (dissect_opra tvb).messages = msgs := by
  simp only [dissect_opra_eq, hrun]
  rcases Nat.mod_two_eq_zero_or_one off with h | h
  · rw [if_neg (by omega : ¬ off % 2 ≠ 0)]
    exact ⟨rfl, rfl⟩
  · rw [if_pos (by omega : off % 2 ≠ 0)]
    exact ⟨rfl, rfl⟩

theorem C8_length_reconciliation_witness :
    (dissect_opra exC8block).lengthError =
      decide (exC8block.length ≠ (dissect_opra exC8block).offset) ∧
    (dissect_opra exC8block).messages = [⟨79, 72, 67, 32, 0, 0⟩] :=
  C8_length_reconciliation exC8block [⟨79, 72, 67, 32, 0, 0⟩] 33 (by decide)

/-- C9 exhibit: a short quote message whose indicator byte is 0, a member
of neither appendage letter list, consumes 12 + 17 + 20 = 49 bytes from
the message start rather than the claimed 29: the payload itself ends at
offset 50 exactly as the claim lays out, but strchr finds the NUL
terminator of both letter strings, so both 10-byte appendages are decoded
on top. -/
theorem C9_short_quote_nul_indicator :
    hf_opra_msg_indicator_best_bid_appendages.contains 0 = false ∧
    hf_opra_msg_indicator_best_offer_appendages.contains 0 = false ∧
    dissect_opra_message_category_q exC9block 33 = 50 ∧
    (dissect_opra exC9block).earlyTerm = false ∧
    (dissect_opra exC9block).offset = 70 := by decide

/-- C10: the administrative decoder consumes the 2-byte big-endian data
length field and then exactly that many payload bytes; with declared
length 0 the offset advances by exactly 2. -/
theorem C10_admin_data_length (tvb : Buf) (offset : Nat) :
    dissect_opra_message_category_C tvb offset = offset + 2 + beUint tvb offset 2 ∧
    (beUint tvb offset 2 = 0 → dissect_opra_message_category_C tvb offset = offset + 2) := by
  simp only [dissect_opra_message_category_C]
  constructor
  · by_cases h : 0 < beUint tvb offset 2
    · rw [if_pos h]
    · rw [if_neg h]
      omega
  · intro h
    rw [h]
    simp

theorem C10_admin_data_length_witness :
    dissect_opra_message_category_C [0, 0] 0 = 0 + 2 :=
  (C10_admin_data_length [0, 0] 0).2 (by decide)
